import Mathlib

/-!
Shallow embedding of the quota/accounting logic of `app.py` (the
"hutextnizer" Flask application).

Modelling conventions:
* Calendar dates are `Nat` (only equality of dates matters to the code).
* The `users` database table is a `List User`; the `usage` table is a
  `List Usage`.  SQLAlchemy's `query(...).filter(...).first()` is
  `List.find?`, and `db.add` appends at the end of the table.
* The Flask session is a record of three optional keys (`user_id`,
  `anon_uses`, `anon_words_today`); a `none` field models an absent key,
  mirroring `session.get(k, default)` / `session.setdefault` /
  `session.pop`.
* The external pieces (bcrypt, the OpenAI chat call) are parameters:
  password hashing/verification are function arguments, and the outcome
  of the rewrite call is an `Except String String` argument (`.error e`
  models the `except Exception as e` path, `.ok r` the successful
  response text).
* A Python function that can raise an unhandled exception is embedded
  with an `Option` result, `none` meaning the request crashes.
-/

namespace Hutextnizer

/-- Row of the `users` table (`class User` in `app.py`). -/
structure User where
  id : Nat
  username : Option String
  email : String
  password_hash : String
  is_paid : Bool
  deriving DecidableEq, Repr

/-- Row of the `usage` table (`class Usage` in `app.py`): `user_id` is
`NULL` for anonymous rows, `date` a calendar date, `words` the cumulative
word count.  The surrogate primary key `id` is irrelevant to the logic
and omitted. -/
structure Usage where
  user_id : Option Nat
  date : Nat
  words : Nat
  deriving DecidableEq, Repr

/-- The Flask session dict, restricted to the three keys the app uses.
`none` models an absent key. -/
structure Session where
  user_id : Option Nat
  anon_uses : Option Nat
  anon_words_today : Option Nat
  deriving DecidableEq, Repr

/-- `DAILY_FREE_WORDS = 10000` in `app.py`. -/
def DAILY_FREE_WORDS : Nat := 10000

/-- The SQL filter `Usage.user_id == uid AND Usage.date == d`. -/
def usageMatches (uid : Option Nat) (d : Nat) (u : Usage) : Bool :=
  decide (u.user_id = uid ∧ u.date = d)

/-- `get_current_user()`: reads `session["user_id"]`; a missing or falsy
(`0`) id yields no user, otherwise the first `users` row with that id. -/
def get_current_user (users : List User) (sess : Session) : Option User :=
  match sess.user_id with
  | none => none
  | some uid => if uid = 0 then none else users.find? (fun u => decide (u.id = uid))

/-- `count_today_words_for_user(user)`: `0` for no user, else the `words`
of the first `usage` row for `(user.id, today)`, or `0` when no row
exists. -/
def count_today_words_for_user (ledger : List Usage) (user : Option User) (today : Nat) : Nat :=
  match user with
  | none => 0
  | some u =>
    match ledger.find? (usageMatches (some u.id) today) with
    | none => 0
    | some row => row.words

/-- The read half of `add_words_for_user`: the ORM query
`db.query(Usage).filter(user_id == uid, date == today).first()`.  This is
the first of the two database round-trips of the function. -/
def aw_read (ledger : List Usage) (uid : Option Nat) (today : Nat) : Option Usage :=
  ledger.find? (usageMatches uid today)

/-- Helper for the write-back: stores `v` into the `words` column of the
first row matching `(uid, today)`, leaving every other row untouched. -/
def writeBack (ledger : List Usage) (uid : Option Nat) (today : Nat) (v : Nat) : List Usage :=
  match ledger with
  | [] => []
  | u :: rest =>
    if usageMatches uid today u then { u with words := v } :: rest
    else u :: writeBack rest uid today v

/-- The write half of `add_words_for_user`, applied to the value the read
half returned: if no row was found, `Usage(user_id=uid, date=today,
words=0)` is added and then incremented (`db.add` appends); if a row was
found, `usage.words += words; db.commit()` stores the stale value read
plus the increment. -/
def aw_write (ledger : List Usage) (uid : Option Nat) (today : Nat) (words : Nat) :
    Option Usage → List Usage
  | none => ledger ++ [{ user_id := uid, date := today, words := 0 + words }]
  | some u => writeBack ledger uid today (u.words + words)

/-- `add_words_for_user(user, words)` (with `uid = user.id if user else
None` already resolved): the sequential composition of the read and the
write round-trips. -/
def add_words_for_user (ledger : List Usage) (uid : Option Nat) (today : Nat) (words : Nat) :
    List Usage :=
  aw_write ledger uid today words (aw_read ledger uid today)

/-- Splitter behind `words_in_text`: Python's `str.split()` with no
separator, i.e. the maximal runs of non-whitespace characters, leading
and trailing whitespace discarded.  `acc` holds the current run,
reversed. -/
def splitWs : List Char → List Char → List (List Char)
  | [], [] => []
  | [], acc => [acc.reverse]
  | c :: rest, acc =>
    if c.isWhitespace then
      match acc with
      | [] => splitWs rest []
      | _ :: _ => acc.reverse :: splitWs rest []
    else splitWs rest (c :: acc)

/-- `words_in_text(text) = len(text.strip().split())`.  The leading
`strip()` does not change the number of whitespace-separated tokens, so
the count is the number of maximal non-whitespace runs. -/
def words_in_text (t : String) : Nat :=
  (splitWs t.data []).length

/-- Models `not text.strip()`: true iff the text is empty or entirely
whitespace. -/
def stripEmpty (t : String) : Bool :=
  t.data.all Char.isWhitespace

/-- Models `s.lower().strip()` on an email string: lowercase every
character, then drop leading whitespace. -/
def dropLeadingWs : List Char → List Char
  | [] => []
  | c :: rest => if c.isWhitespace then dropLeadingWs rest else c :: rest

/-- `email.lower().strip()`: lowercase, then strip whitespace from both
ends. -/
def normalizeEmail (s : String) : String :=
  ⟨((dropLeadingWs ((dropLeadingWs (s.data.map Char.toLower)).reverse)).reverse)⟩

/-- A rendered HTTP response: the flash message with its category, and
the page redirected to (or `"result"` / the other templates for direct
renders). -/
structure Response where
  flash : String
  category : String
  target : String
  deriving DecidableEq, Repr

/-- Outcome of the `/convert` route, by the `return` statement taken. -/
inductive ConvertOutcome where
  /-- `flash("Please paste text to convert.", "error")`, redirect home. -/
  | missingInput : ConvertOutcome
  /-- `flash("Please Signup / Login to use the converter again.", "info")`,
  redirect to signup. -/
  | anonLimit : ConvertOutcome
  /-- `flash("Daily free limit exceeded. Please subscribe for more.",
  "error")`, redirect to pricing (authenticated free user over cap). -/
  | quotaUser : ConvertOutcome
  /-- `flash("Daily free limit exceeded. Please signup for more.",
  "error")`, redirect to signup (anonymous caller over cap). -/
  | quotaAnon : ConvertOutcome
  /-- `render_template('result.html', original_text=o, humanized_text=h)`. -/
  | rendered (original humanized : String) : ConvertOutcome
  deriving DecidableEq, Repr

/-- The string `f"[Error calling AI service: {e}]"` rendered as the
result when the external call raises. -/
def apiErrorText (e : String) : String :=
  "[Error calling AI service: " ++ e ++ "]"

/-- `session.setdefault("anon_words_today", 0)`: materializes the key
with value `0` when absent, leaving its value unchanged otherwise. -/
def setdefaultAnonWords (sess : Session) : Session :=
  { sess with anon_words_today := some (sess.anon_words_today.getD 0) }

/-- Result of one `/convert` request: the response outcome, the session
as the request leaves it, and the `usage` table as the request leaves
it. -/
structure ConvertRes where
  out : ConvertOutcome
  sess : Session
  ledger : List Usage
  deriving DecidableEq, Repr

/-- The `/convert` POST handler.  `text` is the submitted form text,
`call` the outcome of the external rewrite call (only consulted if
control reaches it).  Mirrors `app.py` line by line: empty-input check,
anonymous gate, word count, quota check (authenticated-free via the
ledger, anonymous via the session, paid exempt), the external call, and
usage recording only on success. -/
def convert (users : List User) (sess : Session) (ledger : List Usage) (today : Nat)
    (text : String) (call : Except String String) : ConvertRes :=
  if stripEmpty text then ⟨.missingInput, sess, ledger⟩
  else
    let anonUses := sess.anon_uses.getD 0
    match get_current_user users sess with
    | none =>
      -- `if (not user) and anon_uses >= 1`
      if 1 ≤ anonUses then ⟨.anonLimit, sess, ledger⟩
      else
        let wc := words_in_text text
        -- `session.setdefault("anon_words_today", 0)`
        let sess1 : Session := setdefaultAnonWords sess
        if DAILY_FREE_WORDS < sess1.anon_words_today.getD 0 + wc then ⟨.quotaAnon, sess1, ledger⟩
        else
          match call with
          | Except.error e => ⟨.rendered text (apiErrorText e), sess1, ledger⟩
          | Except.ok r =>
            ⟨.rendered text r,
             { sess1 with
                anon_uses := some (anonUses + 1),
                anon_words_today := some (sess1.anon_words_today.getD 0 + wc) },
             ledger⟩
    | some u =>
      let wc := words_in_text text
      if u.is_paid = false ∧
          DAILY_FREE_WORDS < count_today_words_for_user ledger (some u) today + wc then
        ⟨.quotaUser, sess, ledger⟩
      else
        match call with
        | Except.error e => ⟨.rendered text (apiErrorText e), sess, ledger⟩
        | Except.ok r => ⟨.rendered text r, sess, add_words_for_user ledger (some u.id) today wc⟩

/-- The POST form of `/signup`, each field `request.form.get(k)`. -/
structure SignupForm where
  username : Option String
  email : Option String
  password : Option String
  deriving DecidableEq, Repr

/-- Outcome of a `/signup` POST. -/
inductive SignupOutcome where
  /-- `flash("Email and password are required.", "error")`, redirect back
  to signup. -/
  | missingFields : SignupOutcome
  /-- `flash("Email already registered. Please login.", "error")`,
  redirect to login. -/
  | duplicateEmail : SignupOutcome
  /-- Account created with the given id, caller logged in, redirect
  home. -/
  | created (uid : Nat) : SignupOutcome
  deriving DecidableEq, Repr

/-- The autoincrement primary key SQLite assigns to the next `users`
row: one more than the largest existing id. -/
def nextUserId (users : List User) : Nat :=
  users.foldr (fun u m => max u.id m) 0 + 1

/-- The `/signup` POST handler.  `hash` models `bcrypt.hash`.  Returns
`none` when the handler raises an unhandled exception: the very first
statement on the email runs `request.form.get("email").lower()`, which is
an `AttributeError` when the form has no `email` key (`get` returned
`None`).  Otherwise: missing/empty email-after-normalization or missing
password flashes an error; a registered email redirects to login; else
the row is inserted and the caller logged in. -/
def signup (hash : String → String) (users : List User) (sess : Session)
    (form : SignupForm) : Option (SignupOutcome × List User × Session) :=
  match form.email with
  | none => none
  | some rawEmail =>
    let email := normalizeEmail rawEmail
    -- `if not email or not password` (password may be absent or empty)
    if email = "" ∨ form.password = none ∨ form.password = some "" then
      some (.missingFields, users, sess)
    else if (users.find? (fun u => decide (u.email = email))).isSome then
      some (.duplicateEmail, users, sess)
    else
      let uid := nextUserId users
      let u : User :=
        { id := uid, username := form.username, email := email,
          password_hash := hash (form.password.getD ""), is_paid := false }
      some (.created uid, users ++ [u], { sess with user_id := some uid })

/-- The `/login` POST handler.  `verify` models `bcrypt.verify(password,
stored_hash)`.  Both failure modes — no row with the normalized email,
and hash verification failing — take the same `if not user or not
bcrypt.verify(...)` branch. -/
def login (verify : String → String → Bool) (users : List User) (sess : Session)
    (emailForm passwordForm : Option String) : Response × Session :=
  let email := normalizeEmail (emailForm.getD "")
  let password := passwordForm.getD ""
  match users.find? (fun u => decide (u.email = email)) with
  | none => (⟨"Invalid credentials.", "error", "login"⟩, sess)
  | some u =>
    if verify password u.password_hash then
      (⟨"Logged in successfully.", "success", "home"⟩, { sess with user_id := some u.id })
    else (⟨"Invalid credentials.", "error", "login"⟩, sess)

/-- The `/logout` handler: `session.pop('user_id', None)` and a flash;
the other session keys are untouched. -/
def logout (sess : Session) : Response × Session :=
  (⟨"Logged out.", "info", "home"⟩, { sess with user_id := none })

/-- Ledger invariant of the spec: at most one `usage` row per
`(identity, date)` pair. -/
def atMostOnePerKey (l : List Usage) : Prop :=
  ∀ uid d, l.countP (usageMatches uid d) ≤ 1

/-! ### Path lemmas for the `/convert` handler

One lemma per `return` statement of the route, characterizing the result
under the branch conditions that reach it. -/

lemma convert_blank (users : List User) (sess : Session) (ledger : List Usage) (today : Nat)
    (text : String) (call : Except String String)
    (hst : stripEmpty text = true) :
    convert users sess ledger today text call = ⟨.missingInput, sess, ledger⟩ := by
  simp [convert, hst]

lemma convert_gate (users : List User) (sess : Session) (ledger : List Usage) (today : Nat)
    (text : String) (call : Except String String)
    (hu : get_current_user users sess = none)
    (hga : 1 ≤ sess.anon_uses.getD 0)
    (hst : stripEmpty text = false) :
    convert users sess ledger today text call = ⟨.anonLimit, sess, ledger⟩ := by
  simp [convert, hst, hu, hga]

lemma convert_anon_quota (users : List User) (sess : Session) (ledger : List Usage) (today : Nat)
    (text : String) (call : Except String String)
    (hu : get_current_user users sess = none)
    (hga : sess.anon_uses.getD 0 = 0)
    (hq : DAILY_FREE_WORDS < sess.anon_words_today.getD 0 + words_in_text text)
    (hst : stripEmpty text = false) :
    convert users sess ledger today text call = ⟨.quotaAnon, setdefaultAnonWords sess, ledger⟩ := by
  simp [convert, hst, hu, hga, setdefaultAnonWords, hq]

lemma convert_anon_err (users : List User) (sess : Session) (ledger : List Usage) (today : Nat)
    (text : String) (e : String)
    (hu : get_current_user users sess = none)
    (hga : sess.anon_uses.getD 0 = 0)
    (hq : ¬ DAILY_FREE_WORDS < sess.anon_words_today.getD 0 + words_in_text text)
    (hst : stripEmpty text = false) :
    convert users sess ledger today text (Except.error e) =
      ⟨.rendered text (apiErrorText e), setdefaultAnonWords sess, ledger⟩ := by
  simp [convert, hst, hu, hga, setdefaultAnonWords, hq]

lemma convert_anon_ok (users : List User) (sess : Session) (ledger : List Usage) (today : Nat)
    (text : String) (r : String)
    (hu : get_current_user users sess = none)
    (hga : sess.anon_uses.getD 0 = 0)
    (hq : ¬ DAILY_FREE_WORDS < sess.anon_words_today.getD 0 + words_in_text text)
    (hst : stripEmpty text = false) :
    convert users sess ledger today text (Except.ok r) =
      ⟨.rendered text r,
       ⟨sess.user_id, some (sess.anon_uses.getD 0 + 1),
        some (sess.anon_words_today.getD 0 + words_in_text text)⟩,
       ledger⟩ := by
  simp [convert, hst, hu, hga, setdefaultAnonWords, hq]

lemma convert_auth_quota (users : List User) (sess : Session) (ledger : List Usage) (today : Nat)
    (text : String) (call : Except String String) (u : User)
    (hu : get_current_user users sess = some u)
    (hfree : u.is_paid = false)
    (hq : DAILY_FREE_WORDS < count_today_words_for_user ledger (some u) today + words_in_text text)
    (hst : stripEmpty text = false) :
    convert users sess ledger today text call = ⟨.quotaUser, sess, ledger⟩ := by
  simp [convert, hst, hu, hfree, hq]

lemma convert_auth_err (users : List User) (sess : Session) (ledger : List Usage) (today : Nat)
    (text : String) (e : String) (u : User)
    (hu : get_current_user users sess = some u)
    (hpass : ¬ (u.is_paid = false ∧
      DAILY_FREE_WORDS < count_today_words_for_user ledger (some u) today + words_in_text text))
    (hst : stripEmpty text = false) :
    convert users sess ledger today text (Except.error e) =
      ⟨.rendered text (apiErrorText e), sess, ledger⟩ := by
  simp only [convert, hst, Bool.false_eq_true, if_false, hu]
  rw [if_neg hpass]

lemma convert_auth_ok (users : List User) (sess : Session) (ledger : List Usage) (today : Nat)
    (text : String) (r : String) (u : User)
    (hu : get_current_user users sess = some u)
    (hpass : ¬ (u.is_paid = false ∧
      DAILY_FREE_WORDS < count_today_words_for_user ledger (some u) today + words_in_text text))
    (hst : stripEmpty text = false) :
    convert users sess ledger today text (Except.ok r) =
      ⟨.rendered text r, sess, add_words_for_user ledger (some u.id) today (words_in_text text)⟩ := by
  simp only [convert, hst, Bool.false_eq_true, if_false, hu]
  rw [if_neg hpass]

/-! ### Supporting lemmas about the ledger write-back -/

/-- The matching predicate only looks at the key columns, not `words`. -/
@[simp] lemma usageMatches_set_words (uid : Option Nat) (d : Nat) (u : Usage) (v : Nat) :
    usageMatches uid d { u with words := v } = usageMatches uid d u := rfl

lemma length_writeBack (l : List Usage) (uid : Option Nat) (d : Nat) (v : Nat) :
    (writeBack l uid d v).length = l.length := by
  induction l with
  | nil => rfl
  | cons u rest ih =>
    unfold writeBack
    by_cases h : usageMatches uid d u
    · simp [h]
    · simp [h, ih]

lemma countP_writeBack (l : List Usage) (uid : Option Nat) (d : Nat) (v : Nat)
    (uid' : Option Nat) (d' : Nat) :
    (writeBack l uid d v).countP (usageMatches uid' d') = l.countP (usageMatches uid' d') := by
  induction l with
  | nil => rfl
  | cons u rest ih =>
    unfold writeBack
    by_cases h : usageMatches uid d u
    · simp [h, List.countP_cons]
    · simp [h, List.countP_cons, ih]

/-! ### The claims -/

/-- C1: a free (non-paid) authenticated caller whose cumulative word
count for today plus the word count of the submitted text exceeds the
10,000-word allowance is rejected with the quota redirect before the
rewrite call (the result does not depend on the call's outcome), the
session and ledger are left untouched, and in particular the stored
count for the caller's day is unchanged. -/
theorem C1_free_over_cap_rejected_no_charge
    (users : List User) (sess : Session) (ledger : List Usage) (today : Nat)
    (text : String) (call : Except String String) (u : User)
    (hu : get_current_user users sess = some u)
    (hfree : u.is_paid = false)
    (hover : DAILY_FREE_WORDS <
      count_today_words_for_user ledger (some u) today + words_in_text text)
    (hst : stripEmpty text = false) :
    convert users sess ledger today text call = ⟨.quotaUser, sess, ledger⟩ ∧
    count_today_words_for_user (convert users sess ledger today text call).ledger (some u) today =
      count_today_words_for_user ledger (some u) today := by
  have h := convert_auth_quota users sess ledger today text call u hu hfree hover hst
  exact ⟨h, by rw [h]⟩

/-- Witness for C1 at the spec's example: allowance 10000, used 9995, a
10-word input; the request is rejected and the stored count is still
9995. -/
theorem C1_free_over_cap_rejected_no_charge_witness :
    get_current_user [⟨1, none, "a@b.c", "h", false⟩] ⟨some 1, none, none⟩ =
        some ⟨1, none, "a@b.c", "h", false⟩ ∧
    DAILY_FREE_WORDS <
        count_today_words_for_user [⟨some 1, 0, 9995⟩] (some ⟨1, none, "a@b.c", "h", false⟩) 0 +
          words_in_text "a b c d e f g h i j" ∧
    (convert [⟨1, none, "a@b.c", "h", false⟩] ⟨some 1, none, none⟩ [⟨some 1, 0, 9995⟩] 0
          "a b c d e f g h i j" (Except.ok "r") =
        ⟨.quotaUser, ⟨some 1, none, none⟩, [⟨some 1, 0, 9995⟩]⟩ ∧
      count_today_words_for_user
          (convert [⟨1, none, "a@b.c", "h", false⟩] ⟨some 1, none, none⟩ [⟨some 1, 0, 9995⟩] 0
            "a b c d e f g h i j" (Except.ok "r")).ledger
          (some ⟨1, none, "a@b.c", "h", false⟩) 0 =
        count_today_words_for_user [⟨some 1, 0, 9995⟩] (some ⟨1, none, "a@b.c", "h", false⟩) 0) ∧
    count_today_words_for_user [⟨some 1, 0, 9995⟩] (some ⟨1, none, "a@b.c", "h", false⟩) 0 =
      9995 :=
  ⟨by decide, by decide,
   C1_free_over_cap_rejected_no_charge _ _ _ _ _ _ _ (by decide) (by decide) (by decide)
     (by decide),
   by decide⟩

/-- C4: for an authenticated caller whose account has the paid flag set,
convert never returns a quota rejection, whatever the ledger state, the
text size, and the rewrite call outcome. -/
theorem C4_paid_never_quota_rejected
    (users : List User) (sess : Session) (ledger : List Usage) (today : Nat)
    (text : String) (call : Except String String) (u : User)
    (hu : get_current_user users sess = some u)
    (hpaid : u.is_paid = true) :
    (convert users sess ledger today text call).out ≠ ConvertOutcome.quotaUser ∧
    (convert users sess ledger today text call).out ≠ ConvertOutcome.quotaAnon := by
  have hpass : ¬ (u.is_paid = false ∧ DAILY_FREE_WORDS <
      count_today_words_for_user ledger (some u) today + words_in_text text) := by
    rintro ⟨hf, -⟩
    rw [hpaid] at hf
    cases hf
  cases hst : stripEmpty text with
  | true =>
    rw [convert_blank users sess ledger today text call hst]
    exact ⟨by simp, by simp⟩
  | false =>
    cases call with
    | error e =>
      rw [convert_auth_err users sess ledger today text e u hu hpass hst]
      exact ⟨by simp, by simp⟩
    | ok r =>
      rw [convert_auth_ok users sess ledger today text r u hu hpass hst]
      exact ⟨by simp, by simp⟩

/-- Witness for C4: a paid account with 1,000,000 words already used
today still gets a rendered result, not a quota rejection. -/
theorem C4_paid_never_quota_rejected_witness :
    get_current_user [⟨1, none, "p@b.c", "h", true⟩] ⟨some 1, none, none⟩ =
        some ⟨1, none, "p@b.c", "h", true⟩ ∧
    ((convert [⟨1, none, "p@b.c", "h", true⟩] ⟨some 1, none, none⟩ [⟨some 1, 0, 1000000⟩] 0
          "x y z" (Except.ok "r")).out ≠ ConvertOutcome.quotaUser ∧
     (convert [⟨1, none, "p@b.c", "h", true⟩] ⟨some 1, none, none⟩ [⟨some 1, 0, 1000000⟩] 0
          "x y z" (Except.ok "r")).out ≠ ConvertOutcome.quotaAnon) ∧
    (convert [⟨1, none, "p@b.c", "h", true⟩] ⟨some 1, none, none⟩ [⟨some 1, 0, 1000000⟩] 0
        "x y z" (Except.ok "r")).out = ConvertOutcome.rendered "x y z" "r" :=
  ⟨by decide,
   C4_paid_never_quota_rejected _ _ _ _ _ _ ⟨1, none, "p@b.c", "h", true⟩ (by decide) (by decide),
   by decide⟩

/-- C9: a submission whose word count brings the cumulative daily usage
exactly to the 10,000-word allowance is accepted — the cap comparison is
strict — both for an authenticated free caller (first conjunct) and for
an anonymous caller (second conjunct). -/
theorem C9_exact_cap_accepted :
    (∀ (users : List User) (sess : Session) (ledger : List Usage) (today : Nat)
        (text r : String) (u : User),
      get_current_user users sess = some u →
      u.is_paid = false →
      stripEmpty text = false →
      count_today_words_for_user ledger (some u) today + words_in_text text = DAILY_FREE_WORDS →
      convert users sess ledger today text (Except.ok r) =
        ⟨.rendered text r, sess, add_words_for_user ledger (some u.id) today (words_in_text text)⟩)
  ∧ (∀ (users : List User) (sess : Session) (ledger : List Usage) (today : Nat) (text r : String),
      get_current_user users sess = none →
      sess.anon_uses.getD 0 = 0 →
      stripEmpty text = false →
      sess.anon_words_today.getD 0 + words_in_text text = DAILY_FREE_WORDS →
      convert users sess ledger today text (Except.ok r) =
        ⟨.rendered text r, ⟨sess.user_id, some 1, some DAILY_FREE_WORDS⟩, ledger⟩) := by
  constructor
  · intro users sess ledger today text r u hu hfree hst hsum
    exact convert_auth_ok users sess ledger today text r u hu (by rintro ⟨-, hlt⟩; omega) hst
  · intro users sess ledger today text r hu hga hst hsum
    rw [convert_anon_ok users sess ledger today text r hu hga (by omega) hst]
    simp [hga, hsum]

/-- Witness for C9: an authenticated free caller at 9998 used words
submitting 2 words reaches exactly 10000 and is accepted (the ledger is
written up to 10000); an anonymous caller at 9999 submitting 1 word is
likewise accepted. -/
theorem C9_exact_cap_accepted_witness :
    convert [⟨1, none, "a@b.c", "h", false⟩] ⟨some 1, none, none⟩ [⟨some 1, 0, 9998⟩] 0 "x y"
        (Except.ok "r") =
      ⟨.rendered "x y" "r", ⟨some 1, none, none⟩,
       add_words_for_user [⟨some 1, 0, 9998⟩] (some 1) 0 (words_in_text "x y")⟩ ∧
    add_words_for_user [⟨some 1, 0, 9998⟩] (some 1) 0 (words_in_text "x y") =
      [⟨some 1, 0, 10000⟩] ∧
    convert [] ⟨none, none, some 9999⟩ [] 0 "w" (Except.ok "r") =
      ⟨.rendered "w" "r", ⟨none, some 1, some DAILY_FREE_WORDS⟩, []⟩ :=
  ⟨C9_exact_cap_accepted.1 _ _ _ _ _ _ ⟨1, none, "a@b.c", "h", false⟩ (by decide) (by decide)
     (by decide) (by decide),
   by decide,
   C9_exact_cap_accepted.2 _ _ _ _ _ _ (by decide) (by decide) (by decide) (by decide)⟩

/-- C2: an unauthenticated caller whose per-session conversion counter
is at least 1 is refused unconditionally — for every text and quota
state, before any word counting — with session and ledger untouched
(first conjunct); a successful anonymous conversion increments the
counter by one (second conjunct); hence a second anonymous attempt after
a success is refused, so an anonymous caller succeeds at most once per
session (third conjunct). -/
theorem C2_anonymous_one_shot :
    (∀ (users : List User) (sess : Session) (ledger : List Usage) (today : Nat)
        (text : String) (call : Except String String),
      get_current_user users sess = none →
      1 ≤ sess.anon_uses.getD 0 →
      stripEmpty text = false →
      convert users sess ledger today text call = ⟨.anonLimit, sess, ledger⟩)
  ∧ (∀ (users : List User) (sess : Session) (ledger : List Usage) (today : Nat)
        (text r o h : String),
      get_current_user users sess = none →
      (convert users sess ledger today text (Except.ok r)).out = ConvertOutcome.rendered o h →
      (convert users sess ledger today text (Except.ok r)).sess.anon_uses =
        some (sess.anon_uses.getD 0 + 1))
  ∧ (∀ (users users2 : List User) (sess : Session) (ledger ledger2 : List Usage)
        (today today2 : Nat) (text r o h text2 : String) (call2 : Except String String),
      get_current_user users sess = none →
      (convert users sess ledger today text (Except.ok r)).out = ConvertOutcome.rendered o h →
      get_current_user users2 (convert users sess ledger today text (Except.ok r)).sess = none →
      stripEmpty text2 = false →
      convert users2 (convert users sess ledger today text (Except.ok r)).sess ledger2 today2
          text2 call2 =
        ⟨.anonLimit, (convert users sess ledger today text (Except.ok r)).sess, ledger2⟩) := by
  have inc : ∀ (users : List User) (sess : Session) (ledger : List Usage) (today : Nat)
      (text r o h : String),
      get_current_user users sess = none →
      (convert users sess ledger today text (Except.ok r)).out = ConvertOutcome.rendered o h →
      (convert users sess ledger today text (Except.ok r)).sess.anon_uses =
        some (sess.anon_uses.getD 0 + 1) := by
    intro users sess ledger today text r o h hu hout
    cases hst : stripEmpty text with
    | true =>
      rw [convert_blank users sess ledger today text (Except.ok r) hst] at hout
      simp at hout
    | false =>
      by_cases hga : 1 ≤ sess.anon_uses.getD 0
      · rw [convert_gate users sess ledger today text (Except.ok r) hu hga hst] at hout
        simp at hout
      · have hga0 : sess.anon_uses.getD 0 = 0 := by omega
        by_cases hq : DAILY_FREE_WORDS < sess.anon_words_today.getD 0 + words_in_text text
        · rw [convert_anon_quota users sess ledger today text (Except.ok r) hu hga0 hq hst]
            at hout
          simp at hout
        · rw [convert_anon_ok users sess ledger today text r hu hga0 hq hst]
  refine ⟨fun users sess ledger today text call hu hga hst =>
    convert_gate users sess ledger today text call hu hga hst, inc, ?_⟩
  intro users users2 sess ledger ledger2 today today2 text r o h text2 call2 hu hout hu2 hst2
  have h2 := inc users sess ledger today text r o h hu hout
  exact convert_gate users2 _ ledger2 today2 text2 call2 hu2 (by rw [h2]; simp) hst2

/-- Witness for C2: a fresh anonymous session converts once and the
counter becomes 1; a session with counter 1 is refused even for a short
text; and chaining the two, the second attempt right after the first
success is refused. -/
theorem C2_anonymous_one_shot_witness :
    convert [] ⟨none, some 1, none⟩ [] 0 "short text" (Except.ok "r") =
      ⟨.anonLimit, ⟨none, some 1, none⟩, []⟩ ∧
    (convert [] ⟨none, none, none⟩ [] 0 "hello world" (Except.ok "r")).sess.anon_uses = some 1 ∧
    convert [] (convert [] ⟨none, none, none⟩ [] 0 "hello world" (Except.ok "r")).sess [] 0
        "again please" (Except.ok "s") =
      ⟨.anonLimit, (convert [] ⟨none, none, none⟩ [] 0 "hello world" (Except.ok "r")).sess, []⟩ :=
  ⟨C2_anonymous_one_shot.1 _ _ _ _ _ _ (by decide) (by decide) (by decide),
   C2_anonymous_one_shot.2.1 [] ⟨none, none, none⟩ [] 0 "hello world" "r" "hello world" "r"
     (by decide) (by decide),
   C2_anonymous_one_shot.2.2 [] [] ⟨none, none, none⟩ [] [] 0 0 "hello world" "r" "hello world"
     "r" "again please" (Except.ok "s") (by decide) (by decide) (by decide) (by decide)⟩

/-- C3: when the external rewrite call fails, the ledger is unchanged,
the session identity and both anonymous counters keep their values, and
any rendered result page shows the original text together with the
surfaced error string. -/
theorem C3_failed_rewrite_no_usage
    (users : List User) (sess : Session) (ledger : List Usage) (today : Nat)
    (text e : String) :
    (convert users sess ledger today text (Except.error e)).ledger = ledger
  ∧ (convert users sess ledger today text (Except.error e)).sess.user_id = sess.user_id
  ∧ (convert users sess ledger today text (Except.error e)).sess.anon_uses = sess.anon_uses
  ∧ (convert users sess ledger today text (Except.error e)).sess.anon_words_today.getD 0 =
      sess.anon_words_today.getD 0
  ∧ (∀ o h, (convert users sess ledger today text (Except.error e)).out =
        ConvertOutcome.rendered o h → o = text ∧ h = apiErrorText e) := by
  have main : convert users sess ledger today text (Except.error e) = ⟨.missingInput, sess, ledger⟩
      ∨ convert users sess ledger today text (Except.error e) = ⟨.anonLimit, sess, ledger⟩
      ∨ convert users sess ledger today text (Except.error e) = ⟨.quotaUser, sess, ledger⟩
      ∨ convert users sess ledger today text (Except.error e) =
          ⟨.quotaAnon, setdefaultAnonWords sess, ledger⟩
      ∨ convert users sess ledger today text (Except.error e) =
          ⟨.rendered text (apiErrorText e), sess, ledger⟩
      ∨ convert users sess ledger today text (Except.error e) =
          ⟨.rendered text (apiErrorText e), setdefaultAnonWords sess, ledger⟩ := by
    cases hst : stripEmpty text with
    | true => exact Or.inl (convert_blank users sess ledger today text (Except.error e) hst)
    | false =>
      cases hu : get_current_user users sess with
      | none =>
        by_cases hga : 1 ≤ sess.anon_uses.getD 0
        · exact Or.inr (Or.inl (convert_gate users sess ledger today text (Except.error e) hu
            hga hst))
        · have hga0 : sess.anon_uses.getD 0 = 0 := by omega
          by_cases hq : DAILY_FREE_WORDS < sess.anon_words_today.getD 0 + words_in_text text
          · exact Or.inr (Or.inr (Or.inr (Or.inl (convert_anon_quota users sess ledger today
              text (Except.error e) hu hga0 hq hst))))
          · exact Or.inr (Or.inr (Or.inr (Or.inr (Or.inr (convert_anon_err users sess ledger
              today text e hu hga0 hq hst)))))
      | some u =>
        by_cases hq : u.is_paid = false ∧ DAILY_FREE_WORDS <
            count_today_words_for_user ledger (some u) today + words_in_text text
        · exact Or.inr (Or.inr (Or.inl (convert_auth_quota users sess ledger today text
            (Except.error e) u hu hq.1 hq.2 hst)))
        · exact Or.inr (Or.inr (Or.inr (Or.inr (Or.inl (convert_auth_err users sess ledger
            today text e u hu hq hst)))))
  rcases main with h | h | h | h | h | h <;> rw [h] <;>
    refine ⟨rfl, rfl, rfl, rfl, ?_⟩ <;>
    · intro o h2 hoh
      first
      | · injection hoh with h1 h2x
          exact ⟨h1.symm, h2x.symm⟩
      | · exfalso
          simp at hoh

/-- Witness for C3: an anonymous caller with 5 words used submits a
2-word text and the external call raises; the error is rendered as the
result and nothing is recorded. -/
theorem C3_failed_rewrite_no_usage_witness :
    convert [] ⟨none, none, some 5⟩ [] 0 "hello there" (Except.error "boom") =
      ⟨.rendered "hello there" (apiErrorText "boom"), ⟨none, none, some 5⟩, []⟩ ∧
    ((convert [] ⟨none, none, some 5⟩ [] 0 "hello there" (Except.error "boom")).ledger = []
     ∧ (convert [] ⟨none, none, some 5⟩ [] 0 "hello there" (Except.error "boom")).sess.user_id =
         (⟨none, none, some 5⟩ : Session).user_id
     ∧ (convert [] ⟨none, none, some 5⟩ [] 0 "hello there" (Except.error "boom")).sess.anon_uses =
         (⟨none, none, some 5⟩ : Session).anon_uses
     ∧ (convert [] ⟨none, none, some 5⟩ [] 0 "hello there"
           (Except.error "boom")).sess.anon_words_today.getD 0 =
         (⟨none, none, some 5⟩ : Session).anon_words_today.getD 0
     ∧ (∀ o h, (convert [] ⟨none, none, some 5⟩ [] 0 "hello there"
           (Except.error "boom")).out = ConvertOutcome.rendered o h →
         o = "hello there" ∧ h = apiErrorText "boom")) :=
  ⟨by decide, C3_failed_rewrite_no_usage [] ⟨none, none, some 5⟩ [] 0 "hello there" "boom"⟩

/-- C10: logout removes only the authenticated identity from the
session, leaving both anonymous counters exactly as they were (first
conjunct); consequently a session whose anonymous conversion counter is
at least 1 is still refused anonymous conversions after a logout (second
conjunct). -/
theorem C10_logout_keeps_anon_counters :
    (∀ sess : Session,
      (logout sess).2.user_id = none ∧
      (logout sess).2.anon_uses = sess.anon_uses ∧
      (logout sess).2.anon_words_today = sess.anon_words_today)
  ∧ (∀ (users : List User) (sess : Session) (ledger : List Usage) (today : Nat)
        (text : String) (call : Except String String),
      1 ≤ sess.anon_uses.getD 0 →
      stripEmpty text = false →
      convert users (logout sess).2 ledger today text call =
        ⟨.anonLimit, (logout sess).2, ledger⟩) := by
  constructor
  · intro sess
    exact ⟨rfl, rfl, rfl⟩
  · intro users sess ledger today text call hga hst
    exact convert_gate users _ ledger today text call rfl hga hst

/-- Witness for C10, running the full scenario: a fresh anonymous
session converts once (counter becomes 1, words-today 2), signs up
(identity stored, counters kept), logs out (identity removed, counters
kept), and is then refused a further anonymous conversion. -/
theorem C10_logout_keeps_anon_counters_witness :
    (convert [] ⟨none, none, none⟩ [] 0 "hello world" (Except.ok "r")).sess =
      ⟨none, some 1, some 2⟩ ∧
    signup (fun s => s) [] ⟨none, some 1, some 2⟩ ⟨none, some "a@b.c", some "pw"⟩ =
      some (.created 1, [⟨1, none, "a@b.c", "pw", false⟩], ⟨some 1, some 1, some 2⟩) ∧
    ((logout ⟨some 1, some 1, some 2⟩).2.user_id = none ∧
     (logout ⟨some 1, some 1, some 2⟩).2.anon_uses = some 1 ∧
     (logout ⟨some 1, some 1, some 2⟩).2.anon_words_today = some 2) ∧
    convert [⟨1, none, "a@b.c", "pw", false⟩] (logout ⟨some 1, some 1, some 2⟩).2 [] 0
        "one more try" (Except.ok "s") =
      ⟨.anonLimit, (logout ⟨some 1, some 1, some 2⟩).2, []⟩ :=
  ⟨by decide, by decide,
   C10_logout_keeps_anon_counters.1 ⟨some 1, some 1, some 2⟩,
   C10_logout_keeps_anon_counters.2 _ ⟨some 1, some 1, some 2⟩ _ _ _ _ (by decide) (by decide)⟩

/-- C5: the no-crash claim fails on the signup route.  A signup POST
whose form has a username and a password but no email key at all makes
the handler evaluate `request.form.get("email").lower()` with a `None`
receiver, an `AttributeError`, embedded here as the `none` result (first
conjunct).  By contrast a form that omits only the password is handled
gracefully with the missing-fields flash (second conjunct), which is the
treatment the code itself intends for a missing email in the dead check
on the following line. -/
theorem C5_signup_missing_email_crashes :
    signup (fun s => s) [] ⟨none, none, none⟩ ⟨some "Bob", none, some "pw"⟩ = none ∧
    signup (fun s => s) [] ⟨none, none, none⟩ ⟨some "Bob", some "b@c.d", none⟩ =
      some (.missingFields, [], ⟨none, none, none⟩) := by
  decide

/-- C6: a failing login — no account with the normalized email (first
ledger of hypotheses) or bcrypt verification failure on an existing
account (second) — produces the identical response in both cases: the
same flash text, category, and redirect, and an unchanged session, so
the response does not reveal whether the email is registered. -/
theorem C6_login_failure_indistinguishable
    (v1 v2 : String → String → Bool) (users1 users2 : List User) (s1 s2 : Session)
    (e1 p1 e2 p2 : Option String) (u2 : User)
    (h1 : users1.find? (fun u => decide (u.email = normalizeEmail (e1.getD ""))) = none)
    (h2 : users2.find? (fun u => decide (u.email = normalizeEmail (e2.getD ""))) = some u2)
    (h2v : v2 (p2.getD "") u2.password_hash = false) :
    (login v1 users1 s1 e1 p1).1 = (login v2 users2 s2 e2 p2).1 ∧
    (login v1 users1 s1 e1 p1).1 = ⟨"Invalid credentials.", "error", "login"⟩ ∧
    (login v1 users1 s1 e1 p1).2 = s1 ∧
    (login v2 users2 s2 e2 p2).2 = s2 := by
  simp [login, h1, h2, h2v]

/-- Witness for C6: an unknown email on an empty user table versus a
registered email whose password check fails give byte-identical
responses. -/
theorem C6_login_failure_indistinguishable_witness :
    (login (fun _ _ => false) [] ⟨none, none, none⟩ (some "x@y.z") (some "pw")).1 =
      (login (fun _ _ => false) [⟨1, none, "a@b.c", "hh", false⟩] ⟨none, none, none⟩
        (some "a@b.c") (some "pw")).1 ∧
    (login (fun _ _ => false) [] ⟨none, none, none⟩ (some "x@y.z") (some "pw")).1 =
      ⟨"Invalid credentials.", "error", "login"⟩ ∧
    (login (fun _ _ => false) [] ⟨none, none, none⟩ (some "x@y.z") (some "pw")).2 =
      ⟨none, none, none⟩ ∧
    (login (fun _ _ => false) [⟨1, none, "a@b.c", "hh", false⟩] ⟨none, none, none⟩
        (some "a@b.c") (some "pw")).2 = ⟨none, none, none⟩ :=
  C6_login_failure_indistinguishable (fun _ _ => false) (fun _ _ => false) []
    [⟨1, none, "a@b.c", "hh", false⟩] ⟨none, none, none⟩ ⟨none, none, none⟩
    (some "x@y.z") (some "pw") (some "a@b.c") (some "pw") ⟨1, none, "a@b.c", "hh", false⟩
    (by decide) (by decide) (by decide)

/-- `usageMatches` on an explicit row is the key comparison. -/
lemma usageMatches_mk (uid' : Option Nat) (d' : Nat) (uid : Option Nat) (d v : Nat) :
    usageMatches uid' d' ⟨uid, d, v⟩ = decide (uid = uid' ∧ d = d') := rfl

/-- C7: `add_words_for_user` preserves the at-most-one-record-per-
`(identity, date)` invariant; when a record for the key exists it is
incremented in place and the table size is unchanged, and a record is
created (appended, then incremented from 0) only when none exists. -/
theorem C7_ledger_unique_per_key
    (ledger : List Usage) (uid : Option Nat) (d w : Nat)
    (hinv : atMostOnePerKey ledger) :
    atMostOnePerKey (add_words_for_user ledger uid d w)
  ∧ ((aw_read ledger uid d).isSome →
      (add_words_for_user ledger uid d w).length = ledger.length)
  ∧ (aw_read ledger uid d = none →
      add_words_for_user ledger uid d w =
        ledger ++ [{ user_id := uid, date := d, words := 0 + w }]) := by
  refine ⟨?_, ?_, ?_⟩
  · intro uid' d'
    unfold add_words_for_user
    cases hr : aw_read ledger uid d with
    | none =>
      have hall : ∀ x ∈ ledger, ¬ usageMatches uid d x = true := by
        rw [← List.find?_eq_none]
        exact hr
      unfold aw_write
      rw [List.countP_append]
      by_cases hk : uid = uid' ∧ d = d'
      · obtain ⟨h1, h2⟩ := hk
        subst h1
        subst h2
        have hzero : ledger.countP (usageMatches uid d) = 0 :=
          List.countP_eq_zero.mpr hall
        rw [hzero]
        simp [usageMatches_mk]
      · have hnk : ∀ v, usageMatches uid' d' ⟨uid, d, v⟩ = false := fun v => by
          rw [usageMatches_mk]
          exact decide_eq_false hk
        simp [hnk]
        exact hinv uid' d'
    | some u =>
      unfold aw_write
      rw [countP_writeBack]
      exact hinv uid' d'
  · intro hs
    unfold add_words_for_user
    cases hr : aw_read ledger uid d with
    | none =>
      rw [hr] at hs
      cases hs
    | some u =>
      unfold aw_write
      exact length_writeBack ledger uid d (u.words + w)
  · intro hr
    unfold add_words_for_user
    rw [hr]
    rfl

/-- Witness for C7: a one-row ledger for `(user 1, day 0)` holding 3
words satisfies the invariant; adding 4 more preserves it, keeps the
table at one row, and yields the row with 7 words. -/
theorem C7_ledger_unique_per_key_witness :
    atMostOnePerKey [⟨some 1, 0, 3⟩] ∧
    (atMostOnePerKey (add_words_for_user [⟨some 1, 0, 3⟩] (some 1) 0 4)
     ∧ ((aw_read [⟨some 1, 0, 3⟩] (some 1) 0).isSome →
         (add_words_for_user [⟨some 1, 0, 3⟩] (some 1) 0 4).length =
           ([⟨some 1, 0, 3⟩] : List Usage).length)
     ∧ (aw_read [⟨some 1, 0, 3⟩] (some 1) 0 = none →
         add_words_for_user [⟨some 1, 0, 3⟩] (some 1) 0 4 =
           [⟨some 1, 0, 3⟩] ++ [{ user_id := some 1, date := 0, words := 0 + 4 }])) ∧
    add_words_for_user [⟨some 1, 0, 3⟩] (some 1) 0 4 = [⟨some 1, 0, 7⟩] :=
  ⟨by intro uid d; exact (List.countP_le_length _).trans (by simp),
   C7_ledger_unique_per_key [⟨some 1, 0, 3⟩] (some 1) 0 4
     (by intro uid d; exact (List.countP_le_length _).trans (by simp)),
   by decide⟩

/-- C8: the claim of atomicity fails on the code.  `add_words_for_user`
is two database round-trips — a read (`aw_read`, the ORM query) and a
write computed from the value read (`aw_write`).  Under the concurrent
schedule read-read-write-write for two requests adding 5 and 7 words to
the same `(user 1, day 0)` key starting from 0, both reads see 0, the
second write overwrites the first, and the stored count ends at 7
(first conjunct) — whereas the same two calls run sequentially, as the
claim requires of every schedule, end at 5 + 7 = 12 (second conjunct). -/
theorem C8_concurrent_lost_update :
    count_today_words_for_user
        (aw_write (aw_write [⟨some 1, 0, 0⟩] (some 1) 0 5 (aw_read [⟨some 1, 0, 0⟩] (some 1) 0))
          (some 1) 0 7 (aw_read [⟨some 1, 0, 0⟩] (some 1) 0))
        (some ⟨1, none, "a@b.c", "h", false⟩) 0 = 7 ∧
    count_today_words_for_user
        (add_words_for_user (add_words_for_user [⟨some 1, 0, 0⟩] (some 1) 0 5) (some 1) 0 7)
        (some ⟨1, none, "a@b.c", "h", false⟩) 0 = 5 + 7 ∧
    (7 : Nat) ≠ 5 + 7 := by
  decide

end Hutextnizer
